import Mathlib

/-!
Shallow embedding of the URL-resolution and routing pipeline of `imgbot.py`.

Python dicts with string keys become association lists, the HTTP transport and
the HTML element finder become function-valued fields of an environment, and
`route_posts` becomes a function from a post to the routing outcome together
with the list of URLs handed to `get_request` (the fetch attempts).
-/

namespace Imgbot

/-- A selector rule: a Python dict of string keys to string values, kept as an
association list (e.g. `{"name": "meta", "property": "og:image", "link": "content"}`). -/
abbrev Rule := List (String × String)

/-- The selector registry `IMAGE_SELECTORS`: a Python dict from domain to rule. -/
abbrev Registry := List (String × Rule)

/-- Python `suffix.data` is the suffix relation on the character lists:
model of `str.endswith(suffix)` for a single suffix. -/
def endsWith (s suf : String) : Bool := decide (suf.data <:+ s.data)

/-- Model of Python `str.endswith(tuple_of_suffixes)`. -/
def endsWithAny (s : String) (sufs : List String) : Bool :=
  sufs.any (fun suf => endsWith s suf)

/-- Model of Python `str.startswith(tuple)`. -/
def startsWithAny (s : String) (pres : List String) : Bool :=
  pres.any (fun p => decide (p.data <+: s.data))

/-- Model of Python `pat in s` on strings: substring containment. -/
def containsSub (s pat : String) : Bool := decide (pat.data <:+: s.data)

/-- Model of Python `str.lower()`: lowercase the string character by
character. -/
def toLowerStr (s : String) : String := ⟨s.data.map Char.toLower⟩

/-- `IMAGE_FORMATS`: extensions recognized as direct images. -/
def IMAGE_FORMATS : List String := [".png", ".gif", ".gifv", ".jpg", ".jpeg"]

/-- The built-in `IMAGE_SELECTORS` table of `imgbot.py`. -/
def IMAGE_SELECTORS : Registry :=
  [("default", [("name", "meta"), ("property", "og:image"), ("link", "content")]),
   ("imgur.com", [("name", "link"), ("rel", "image_src"), ("link", "href")]),
   ("tinypic.com", [("name", "a"), ("class", "thickbox"), ("link", "href")]),
   ("gfycat.com", [("name", "meta"), ("property", "og:url"), ("link", "content")])]

/-- Python dict merge `{**a, **b}` for string-keyed tables: the keys of `a` in
order with values overridden by `b` on collision, then the new keys of `b`. -/
def dictMerge (a b : Registry) : Registry :=
  a.map (fun p => (p.1, (b.lookup p.1).getD p.2)) ++
    b.filter (fun p => (a.lookup p.1).isNone)

/-- An HTTP response as the routing code observes it: `req.ok`, `req.text`,
and the final resolved URL `req.url`. -/
structure Response where
  ok : Bool
  text : String
  url : String
deriving Repr, DecidableEq

/-- The external collaborators: the transport (`session.get`), the HTML finder
(`BeautifulSoup(...).find(**selectors)` returning the attribute dict of an element,
or none when no element matches), and the global selector registry. -/
structure Env where
  transport : String → Response
  soupFind : String → Rule → Option Rule
  registry : Registry

/-- Scheme normalization at the top of `get_request`: URLs missing a protocol
are given the default "http://" scheme in front. -/
def normalizeUrl (url : String) : String :=
  if startsWithAny url ["http://", "https://"] then url else "http://" ++ url

/-- `get_request`: normalize the scheme, issue the GET, and turn a non-success
status into `none` (the Python code logs the bad URL and returns `None`). -/
def get_request (env : Env) (url : String) : Option Response :=
  let url := normalizeUrl url
  let req := env.transport url
  if !req.ok then none else some req

/-- The characters after the first "//" of a character list, if any. -/
def afterDoubleSlash : List Char → Option (List Char)
  | [] => none
  | '/' :: '/' :: rest => some rest
  | _ :: rest => afterDoubleSlash rest

/-- `urlparse(url).netloc`: the authority between the first "//" and the next
"/", empty when the URL has no "//" at all. -/
def netloc (url : String) : String :=
  match afterDoubleSlash url.data with
  | some rest => ⟨rest.takeWhile (fun c => c != '/')⟩
  | none => ""

/-- The registry lookup inside `get_image_url`: `IMAGE_SELECTORS[domain]`, and
on `KeyError` the `"default"` entry. -/
def selectorsFor (reg : Registry) (domain : String) : Rule :=
  match reg.lookup domain with
  | some r => r
  | none => (reg.lookup "default").getD []

/-- `get_image_url`: look up the selector rule for the domain of the URL (taking a
defensive `.copy()`), pop the `link` key from the copy, fetch the page, find
the matching element and read the link attribute off it. The registry is
threaded through explicitly so that mutation claims are statable; the pop acts
only on the local copy, never on the registry entry. Every rule of the
development carries a "link" key; on a rule without one `selectors.pop` would
raise, modelled as the `none` outcome. -/
def get_image_url (env : Env) (reg : Registry) (url : String) :
    Option String × Registry :=
  let domain := netloc url
  let selectors := selectorsFor reg domain
  match selectors.lookup "link" with
  | none => (none, reg)
  | some link =>
    let selectors := selectors.filter (fun p => p.1 != "link")
    match get_request env url with
    | none => (none, reg)
    | some req =>
      match env.soupFind req.text selectors with
      | none => (none, reg)
      | some img => (img.lookup link, reg)

/-- A post record as `route_posts` reads it. -/
structure Post where
  url : String
  title : String
  stickied : Bool
  is_self : Bool
  over_18 : Bool
deriving Repr, DecidableEq

/-- Outcome of the working-URL computation (lines 100-113 of `route_posts`). -/
inductive Resolution where
  | albumOff
  | unresolved
  | work (url : String)
deriving Repr, DecidableEq

/-- Lines 100-113 of `route_posts`: album URLs get the "/zip" suffix (skipping
when albums are disabled), direct-image URLs pass unchanged, anything else is
scraped via `get_image_url` (skipping on a falsy result). The second component
lists the URLs handed to `get_request` along the way. -/
def resolveUrl (env : Env) (albums : Bool) (url : String) :
    Resolution × List String :=
  if containsSub url "/a/" then
    if !albums then (.albumOff, [])
    else (.work (url ++ "/zip"), [])
  else
    if !(endsWithAny (toLowerStr url) IMAGE_FORMATS) then
      match (get_image_url env env.registry url).1 with
      | none => (.unresolved, [url])
      | some u => if u == "" then (.unresolved, [url]) else (.work u, [url])
    else (.work url, [])

/-- Per-post routing outcome. -/
inductive Outcome where
  | skippedFilter
  | skippedAlbumOff
  | skippedUnresolved
  | skippedGifOff
  | skippedBadFetch
  | downloadedAlbum (url : String)
  | downloadedImage (url : String)
deriving Repr, DecidableEq

/-- Lines 114-128 of `route_posts`: the gif toggle (a case-sensitive
`url.endswith((".gif", ".gifv"))`), the download fetch, and the dispatch to
`download_album` or `download_image` by the "/a/" marker. -/
def dispatchUrl (env : Env) (gifs : Bool) (url : String) :
    Outcome × List String :=
  if endsWithAny url [".gif", ".gifv"] && !gifs then (.skippedGifOff, [])
  else
    match get_request env url with
    | none => (.skippedBadFetch, [url])
    | some _ =>
      if containsSub url "/a/" then (.downloadedAlbum url, [url])
      else (.downloadedImage url, [url])

/-- The body of the `for post in posts` loop of `route_posts` for one post:
the moderation filters, then the working-URL computation, then the dispatch. -/
def routePost (env : Env) (albums gifs nsfw : Bool) (post : Post) :
    Outcome × List String :=
  if post.stickied || post.is_self then (.skippedFilter, [])
  else if post.over_18 && !nsfw then (.skippedFilter, [])
  else
    match resolveUrl env albums post.url with
    | (.albumOff, fs) => (.skippedAlbumOff, fs)
    | (.unresolved, fs) => (.skippedUnresolved, fs)
    | (.work url, fs) =>
      let r := dispatchUrl env gifs url
      (r.1, fs ++ r.2)

/-- `route_posts`: every post of the feed is routed, in feed order. -/
def route_posts (env : Env) (posts : List Post) (albums gifs nsfw : Bool) :
    List (Outcome × List String) :=
  posts.map (routePost env albums gifs nsfw)

/-- A sequence of `get_image_url` calls, threading the registry state through. -/
def runLookups (env : Env) (reg : Registry) (urls : List String) : Registry :=
  urls.foldl (fun r u => (get_image_url env r u).2) reg

/-- A transport whose every response succeeds, echoing the requested URL. -/
def okTransport : String → Response := fun u => { ok := true, text := "", url := u }

/-- A transport whose every response carries a non-success status. -/
def badTransport : String → Response := fun u => { ok := false, text := "", url := u }

/-- An HTML finder that matches no element on any page. -/
def noFind : String → Rule → Option Rule := fun _ _ => none

/-- Concrete environment with an always-succeeding transport. -/
def testEnv : Env :=
  { transport := okTransport, soupFind := noFind, registry := IMAGE_SELECTORS }

/-- Concrete environment whose transport always fails. -/
def badEnv : Env :=
  { transport := badTransport, soupFind := noFind, registry := IMAGE_SELECTORS }

/-! Helper lemmas about association-list lookup and the string models. -/

/-- Lookup distributes over list append, preferring the left table. -/
theorem lookup_append (l₁ l₂ : Registry) (k : String) :
    (l₁ ++ l₂).lookup k = (l₁.lookup k).or (l₂.lookup k) := by
  induction l₁ with
  | nil => simp
  | cons p t ih =>
    obtain ⟨a, b⟩ := p
    cases h : k == a
    · simpa [List.lookup_cons, h] using ih
    · simp [List.lookup_cons, h]

/-- Lookup over a key-preserving value override. -/
theorem lookup_map_override (a b : Registry) (k : String) :
    (a.map (fun p => (p.1, (b.lookup p.1).getD p.2))).lookup k =
      (a.lookup k).map (fun v => (b.lookup k).getD v) := by
  induction a with
  | nil => simp
  | cons p t ih =>
    obtain ⟨x, v⟩ := p
    cases h : k == x
    · simpa [List.lookup_cons, h] using ih
    · have hk : k = x := eq_of_beq h
      subst hk
      simp [List.lookup_cons]

/-- Filtering out the keys of `a` does not disturb lookup of a key absent from `a`. -/
theorem lookup_filter_keep (a b : Registry) (k : String) (ha : a.lookup k = none) :
    (b.filter (fun p => (a.lookup p.1).isNone)).lookup k = b.lookup k := by
  induction b with
  | nil => simp
  | cons p t ih =>
    obtain ⟨x, v⟩ := p
    by_cases hk : k = x
    · subst hk
      simp [List.filter_cons, ha, List.lookup_cons]
    · have hbeq : (k == x) = false := beq_eq_false_iff_ne.mpr hk
      cases hp : (a.lookup x).isNone
      · simp [List.filter_cons, hp, List.lookup_cons, hbeq, ih]
      · simp [List.filter_cons, hp, List.lookup_cons, hbeq, ih]

/-- A filtered table has no binding for a key the full table lacks. -/
theorem lookup_filter_none (b : Registry) (q : String × Rule → Bool) (k : String)
    (hb : b.lookup k = none) : (b.filter q).lookup k = none := by
  induction b with
  | nil => simp
  | cons p t ih =>
    obtain ⟨x, v⟩ := p
    rw [List.lookup_cons] at hb
    cases h : k == x
    · rw [h] at hb
      cases hq : q (x, v)
      · simp [List.filter_cons, hq, ih hb]
      · simp [List.filter_cons, hq, List.lookup_cons, h, ih hb]
    · rw [h] at hb
      exact absurd hb (by simp)

/-- In a Python dict merge the second table wins on key collision. -/
theorem dictMerge_lookup_override (a b : Registry) (k : String) (r : Rule)
    (hb : b.lookup k = some r) : (dictMerge a b).lookup k = some r := by
  unfold dictMerge
  rw [lookup_append, lookup_map_override]
  cases ha : a.lookup k
  · simp [lookup_filter_keep a b k ha, hb]
  · simp [hb]

/-- A key absent from the second table keeps its first-table binding after the merge. -/
theorem dictMerge_lookup_builtin (a b : Registry) (k : String)
    (hb : b.lookup k = none) : (dictMerge a b).lookup k = a.lookup k := by
  unfold dictMerge
  rw [lookup_append, lookup_map_override, hb, lookup_filter_none b _ k hb]
  cases ha : a.lookup k <;> simp

/-- One `get_image_url` call hands the registry back untouched: the rule it
pops from is a defensive copy. -/
theorem get_image_url_registry (env : Env) (reg : Registry) (url : String) :
    (get_image_url env reg url).2 = reg := by
  unfold get_image_url
  dsimp only
  split
  · rfl
  · split
    · rfl
    · split <;> rfl

/-- An appended "/zip" defeats the case-sensitive gif suffix test. -/
theorem zip_gif_check (url : String) :
    endsWithAny (url ++ "/zip") [".gif", ".gifv"] = false := by
  have hzip : ("/zip" : String).data = ['/', 'z', 'i', 'p'] := rfl
  simp only [endsWithAny, endsWith, List.any_cons, List.any_nil, Bool.or_false,
    Bool.or_eq_false_iff, decide_eq_false_iff_not]
  constructor
  · rintro ⟨t, ht⟩
    have h := congrArg List.getLast? ht
    rw [String.data_append, hzip] at h
    simp [List.getLast?_append] at h
  · rintro ⟨t, ht⟩
    have h := congrArg List.getLast? ht
    rw [String.data_append, hzip] at h
    simp [List.getLast?_append] at h

/-- Substring containment survives appending on the right. -/
theorem containsSub_append (s t pat : String) (h : containsSub s pat = true) :
    containsSub (s ++ t) pat = true := by
  simp only [containsSub, decide_eq_true_eq] at h ⊢
  obtain ⟨u, v, huv⟩ := h
  refine ⟨u, v ++ t.data, ?_⟩
  rw [String.data_append, ← huv]
  simp

/-- A post passing the moderation filters is routed by resolution and dispatch. -/
theorem routePost_work (env : Env) (albums gifs nsfw : Bool) (post : Post)
    (hs : post.stickied = false) (hself : post.is_self = false)
    (hn : post.over_18 = false) (w : String) (fs : List String)
    (hres : resolveUrl env albums post.url = (.work w, fs)) :
    routePost env albums gifs nsfw post =
      ((dispatchUrl env gifs w).1, fs ++ (dispatchUrl env gifs w).2) := by
  simp [routePost, hs, hself, hn, hres]

/-! Claim theorems. -/

/-- C1: a post whose URL contains the album marker "/a/" and passes the
moderation filters is skipped with a logged notice and no fetch attempt when
download_albums is false; when download_albums is true the Resolver appends
"/zip" to the URL and the Router fetches exactly that URL and dispatches it to
the album download (a failing fetch yields the bad-fetch skip instead). -/
theorem c1_album_toggle (env : Env) (gifs nsfw : Bool) (post : Post)
    (hs : post.stickied = false) (hself : post.is_self = false)
    (hn : post.over_18 = false)
    (ha : containsSub post.url "/a/" = true) :
    routePost env false gifs nsfw post = (.skippedAlbumOff, []) ∧
    resolveUrl env true post.url = (.work (post.url ++ "/zip"), []) ∧
    routePost env true gifs nsfw post =
      (if (env.transport (normalizeUrl (post.url ++ "/zip"))).ok
        then (.downloadedAlbum (post.url ++ "/zip"), [post.url ++ "/zip"])
        else (.skippedBadFetch, [post.url ++ "/zip"])) := by
  have hres : resolveUrl env true post.url = (.work (post.url ++ "/zip"), []) := by
    simp [resolveUrl, ha]
  refine ⟨?_, hres, ?_⟩
  · simp [routePost, hs, hself, hn, resolveUrl, ha]
  · rw [routePost_work env true gifs nsfw post hs hself hn _ _ hres]
    cases hok : (env.transport (normalizeUrl (post.url ++ "/zip"))).ok
    · simp [dispatchUrl, zip_gif_check, get_request, hok]
    · simp [dispatchUrl, zip_gif_check, get_request, hok,
        containsSub_append _ _ _ ha]

/-- Witness post for the album scenarios. -/
def c1Post : Post :=
  { url := "http://imgur.com/a/XYZ", title := "t", stickied := false,
    is_self := false, over_18 := false }

/-- C1 witness at the end-to-end album scenario of the spec. -/
theorem c1_album_toggle_witness :
    routePost testEnv false true false c1Post = (.skippedAlbumOff, []) ∧
    resolveUrl testEnv true c1Post.url = (.work "http://imgur.com/a/XYZ/zip", []) ∧
    routePost testEnv true true false c1Post =
      (.downloadedAlbum "http://imgur.com/a/XYZ/zip",
        ["http://imgur.com/a/XYZ/zip"]) := by
  obtain ⟨h1, h2, h3⟩ := c1_album_toggle testEnv true false c1Post rfl rfl rfl (by decide)
  refine ⟨h1, ?_, ?_⟩
  · rw [h2]
    decide
  · rw [h3]
    decide

/-- C2: a URL without the album marker whose extension is one of the direct
image formats, compared case-insensitively, resolves to itself unchanged with
no fetch attempt during resolution. -/
theorem c2_direct_image (env : Env) (albums : Bool) (url : String)
    (hna : containsSub url "/a/" = false)
    (hext : endsWithAny (toLowerStr url) IMAGE_FORMATS = true) :
    resolveUrl env albums url = (.work url, []) := by
  simp [resolveUrl, hna, hext]

/-- C2 witness: an uppercase .JPG URL passes through unchanged even when every
fetch in the environment would fail, showing none is attempted. -/
theorem c2_direct_image_witness :
    resolveUrl badEnv true "http://x.com/pic.JPG" =
      (.work "http://x.com/pic.JPG", []) :=
  c2_direct_image badEnv true "http://x.com/pic.JPG" (by decide) (by decide)

/-- Post with an uppercase gif extension. -/
def c3Post : Post :=
  { url := "http://x.com/anim.GIF", title := "t", stickied := false,
    is_self := false, over_18 := false }

/-- C3 counterexample: with download_gifs disabled, a post whose URL is a gif
form under the case-insensitive rule (here ".GIF") is not skipped: the Router
fetches it and dispatches it to the image download, because the gif test of
the code is case-sensitive while the direct-image test lowercases first. -/
theorem c3_gif_case_counterexample :
    endsWithAny (toLowerStr c3Post.url) [".gif", ".gifv"] = true ∧
    routePost testEnv true false false c3Post =
      (.downloadedImage "http://x.com/anim.GIF", ["http://x.com/anim.GIF"]) := by
  exact ⟨by decide, by decide⟩

/-- C3 amended: for every post whose working URL ends case-sensitively in
".gif" or ".gifv", disabled gif downloads skip the post with a logged notice
and no fetch of the working URL. -/
theorem c3_gif_skip (env : Env) (albums nsfw : Bool) (post : Post)
    (hs : post.stickied = false) (hself : post.is_self = false)
    (hn : post.over_18 = false) (w : String) (fs : List String)
    (hres : resolveUrl env albums post.url = (.work w, fs))
    (hgif : endsWithAny w [".gif", ".gifv"] = true) :
    routePost env albums false nsfw post = (.skippedGifOff, fs) := by
  rw [routePost_work env albums false nsfw post hs hself hn w fs hres]
  simp [dispatchUrl, hgif]

/-- Post with a lowercase gif extension. -/
def c3LowerPost : Post :=
  { url := "http://x.com/anim.gif", title := "t", stickied := false,
    is_self := false, over_18 := false }

/-- C3 amended witness: a lowercase .gif URL is skipped when gifs are off. -/
theorem c3_gif_skip_witness :
    routePost testEnv true false false c3LowerPost = (.skippedGifOff, []) :=
  c3_gif_skip testEnv true false c3LowerPost rfl rfl rfl
    "http://x.com/anim.gif" [] (by decide) (by decide)

/-- C4: a stickied or self post, and an over-18 post while NSFW downloads are
disabled, is skipped before any resolution or fetch, whatever its URL. -/
theorem c4_filters (env : Env) (albums gifs nsfw : Bool) (post : Post)
    (h : post.stickied = true ∨ post.is_self = true ∨
      (post.over_18 = true ∧ nsfw = false)) :
    routePost env albums gifs nsfw post = (.skippedFilter, []) := by
  rcases h with h | h | ⟨h1, h2⟩
  · simp [routePost, h]
  · simp [routePost, h]
  · simp [routePost, h1, h2]

/-- Post hitting the NSFW filter with an album-shaped URL. -/
def c4Post : Post :=
  { url := "http://imgur.com/a/pic.jpg", title := "t", stickied := false,
    is_self := false, over_18 := true }

/-- C4 witness: an over-18 post is filtered out with no fetch, NSFW off. -/
theorem c4_filters_witness :
    routePost testEnv true true false c4Post = (.skippedFilter, []) :=
  c4_filters testEnv true true false c4Post (Or.inr (Or.inr ⟨rfl, rfl⟩))

/-- Variant of the dispatch lemma phrased on the raw boolean filter tests. -/
theorem routePost_dispatch (env : Env) (albums gifs nsfw : Bool) (post : Post)
    (h1 : (post.stickied || post.is_self) = false)
    (h2 : (post.over_18 && !nsfw) = false) (w : String) (fs : List String)
    (hres : resolveUrl env albums post.url = (.work w, fs)) :
    routePost env albums gifs nsfw post =
      ((dispatchUrl env gifs w).1, fs ++ (dispatchUrl env gifs w).2) := by
  simp [routePost, h1, h2, hres]

/-- C5: a non-success transport status is absorbed locally: `get_request`
yields none, `get_image_url` resolves to none (Unresolved), the Router skips
just that post, and the rest of the feed is still routed; a non-success status
on the downstream download fetch likewise yields only the bad-fetch skip. -/
theorem c5_bad_status (env : Env) (albums gifs nsfw : Bool) (post : Post)
    (rest : List Post)
    (hs : post.stickied = false) (hself : post.is_self = false)
    (hn : post.over_18 = false)
    (hna : containsSub post.url "/a/" = false)
    (hext : endsWithAny (toLowerStr post.url) IMAGE_FORMATS = false)
    (hbad : (env.transport (normalizeUrl post.url)).ok = false) :
    get_request env post.url = none ∧
    (get_image_url env env.registry post.url).1 = none ∧
    routePost env albums gifs nsfw post = (.skippedUnresolved, [post.url]) ∧
    route_posts env (post :: rest) albums gifs nsfw =
      (.skippedUnresolved, [post.url]) :: route_posts env rest albums gifs nsfw ∧
    ∀ q : Post, q.stickied = false → q.is_self = false → q.over_18 = false →
      containsSub q.url "/a/" = false →
      endsWithAny (toLowerStr q.url) IMAGE_FORMATS = true →
      endsWithAny q.url [".gif", ".gifv"] = false →
      (env.transport (normalizeUrl q.url)).ok = false →
      routePost env albums gifs nsfw q = (.skippedBadFetch, [q.url]) := by
  have hreq : get_request env post.url = none := by simp [get_request, hbad]
  have himg : ∀ reg, (get_image_url env reg post.url).1 = none := by
    intro reg
    unfold get_image_url
    dsimp only
    split
    · rfl
    · rw [hreq]
  have hres : resolveUrl env albums post.url = (.unresolved, [post.url]) := by
    simp [resolveUrl, hna, hext, himg env.registry]
  have hroute : routePost env albums gifs nsfw post = (.skippedUnresolved, [post.url]) := by
    simp [routePost, hs, hself, hn, hres]
  refine ⟨hreq, himg env.registry, hroute, ?_, ?_⟩
  · simp [route_posts, hroute]
  · intro q qs qself qn qna qext qgif qbad
    have hresq : resolveUrl env albums q.url = (.work q.url, []) := by
      simp [resolveUrl, qna, qext]
    rw [routePost_work env albums gifs nsfw q qs qself qn _ _ hresq]
    simp [dispatchUrl, qgif, get_request, qbad]

/-- Post with an indirect page URL. -/
def c5Post : Post :=
  { url := "http://x.com/page", title := "t", stickied := false,
    is_self := false, over_18 := false }

/-- Post with a direct image URL, exercising the download fetch. -/
def c5DirectPost : Post :=
  { url := "http://x.com/pic.png", title := "t", stickied := false,
    is_self := false, over_18 := false }

/-- C5 witness: an all-failing transport turns one post into the unresolved
skip and the next into the bad-fetch skip, with both posts processed. -/
theorem c5_bad_status_witness :
    get_request badEnv c5Post.url = none ∧
    routePost badEnv true true false c5Post = (.skippedUnresolved, [c5Post.url]) ∧
    route_posts badEnv [c5Post, c5DirectPost] true true false =
      [(.skippedUnresolved, ["http://x.com/page"]),
       (.skippedBadFetch, ["http://x.com/pic.png"])] := by
  have h := c5_bad_status badEnv true true false c5Post [c5DirectPost]
    rfl rfl rfl (by decide) (by decide) (by decide)
  have hq := h.2.2.2.2 c5DirectPost rfl rfl rfl
    (by decide) (by decide) (by decide) (by decide)
  refine ⟨h.1, h.2.2.1, ?_⟩
  rw [h.2.2.2.1]
  simp only [route_posts, List.map_cons, List.map_nil, hq]
  decide

/-- C6: registry lookup returns the domain rule when the domain is mapped and
exactly the fields of the built-in default rule otherwise. -/
theorem c6_rule_for (d : String) :
    (IMAGE_SELECTORS.lookup d = none →
      selectorsFor IMAGE_SELECTORS d =
        [("name", "meta"), ("property", "og:image"), ("link", "content")]) ∧
    ∀ r, IMAGE_SELECTORS.lookup d = some r → selectorsFor IMAGE_SELECTORS d = r := by
  constructor
  · intro h
    simp [selectorsFor, h]
    decide
  · intro r h
    simp [selectorsFor, h]

/-- C6 witness at an unmapped and a mapped domain. -/
theorem c6_rule_for_witness :
    selectorsFor IMAGE_SELECTORS "unmapped.example" =
      [("name", "meta"), ("property", "og:image"), ("link", "content")] ∧
    selectorsFor IMAGE_SELECTORS "imgur.com" =
      [("name", "link"), ("rel", "image_src"), ("link", "href")] :=
  ⟨(c6_rule_for "unmapped.example").1 (by decide),
   (c6_rule_for "imgur.com").2
     [("name", "link"), ("rel", "image_src"), ("link", "href")] (by decide)⟩

/-- C7: after the startup merge of a user override table over the built-in
table, an overridden domain resolves to the rule of the override and every
built-in domain absent from the override keeps its built-in rule. -/
theorem c7_merge_override (user : Registry) (d : String) :
    (∀ r, user.lookup d = some r →
      (dictMerge IMAGE_SELECTORS user).lookup d = some r) ∧
    (user.lookup d = none →
      (dictMerge IMAGE_SELECTORS user).lookup d = IMAGE_SELECTORS.lookup d) :=
  ⟨fun r hr => dictMerge_lookup_override IMAGE_SELECTORS user d r hr,
   fun hn => dictMerge_lookup_builtin IMAGE_SELECTORS user d hn⟩

/-- A user override table keyed by a new domain. -/
def userSelectors : Registry :=
  [("example.com", [("name", "img"), ("class", "main"), ("link", "src")])]

/-- C7 witness: the overridden domain gets the override rule, imgur.com keeps
its built-in rule. -/
theorem c7_merge_override_witness :
    (dictMerge IMAGE_SELECTORS userSelectors).lookup "example.com" =
      some [("name", "img"), ("class", "main"), ("link", "src")] ∧
    (dictMerge IMAGE_SELECTORS userSelectors).lookup "imgur.com" =
      some [("name", "link"), ("rel", "image_src"), ("link", "href")] := by
  constructor
  · exact (c7_merge_override userSelectors "example.com").1
      [("name", "img"), ("class", "main"), ("link", "src")] (by decide)
  · rw [(c7_merge_override userSelectors "imgur.com").2 (by decide)]
    decide

/-- C8: any sequence of `get_image_url` calls leaves every registry entry
exactly as it was before: each call pops only a defensive copy of the
looked-up rule, never the entry held by the registry. -/
theorem c8_registry_unmutated (env : Env) (reg : Registry) (urls : List String) :
    runLookups env reg urls = reg ∧
    ∀ d, (runLookups env reg urls).lookup d = reg.lookup d := by
  have main : ∀ us r, runLookups env r us = r := by
    intro us
    induction us with
    | nil => intro r; rfl
    | cons u t ih =>
      intro r
      have h : runLookups env r (u :: t) =
          runLookups env ((get_image_url env r u).2) t := rfl
      rw [h, get_image_url_registry, ih]
  exact ⟨main urls reg, fun d => by rw [main urls reg]⟩

/-- C9: the album marker takes precedence over the direct-image extension test
and is domain-independent: a URL containing "/a/", even one with a
direct-image extension on a non-imgur domain, is suffixed with "/zip" and
dispatched to the album download, never to the image download. -/
theorem c9_album_precedence (env : Env) (gifs nsfw : Bool) (post : Post)
    (hs : post.stickied = false) (hself : post.is_self = false)
    (hn : post.over_18 = false)
    (ha : containsSub post.url "/a/" = true)
    (_hext : endsWithAny (toLowerStr post.url) IMAGE_FORMATS = true)
    (_hdom : netloc post.url ≠ "imgur.com") :
    resolveUrl env true post.url = (.work (post.url ++ "/zip"), []) ∧
    (∀ req, get_request env (post.url ++ "/zip") = some req →
      routePost env true gifs nsfw post =
        (.downloadedAlbum (post.url ++ "/zip"), [post.url ++ "/zip"])) ∧
    ∀ v, (routePost env true gifs nsfw post).1 ≠ .downloadedImage v := by
  have hres : resolveUrl env true post.url = (.work (post.url ++ "/zip"), []) := by
    simp [resolveUrl, ha]
  have hw := routePost_work env true gifs nsfw post hs hself hn _ _ hres
  refine ⟨hres, ?_, ?_⟩
  · intro req hreq
    rw [hw]
    simp [dispatchUrl, zip_gif_check, hreq, containsSub_append _ _ _ ha]
  · intro v
    rw [hw]
    cases hr : get_request env (post.url ++ "/zip")
    · simp [dispatchUrl, zip_gif_check, hr]
    · simp [dispatchUrl, zip_gif_check, hr, containsSub_append _ _ _ ha]

/-- Album-marked post with a .jpg extension on a non-imgur domain. -/
def c9Post : Post :=
  { url := "http://other.com/a/pic.jpg", title := "t", stickied := false,
    is_self := false, over_18 := false }

/-- C9 witness: the .jpg album URL on other.com is zipped and album-fetched. -/
theorem c9_album_precedence_witness :
    routePost testEnv true true false c9Post =
      (.downloadedAlbum "http://other.com/a/pic.jpg/zip",
        ["http://other.com/a/pic.jpg/zip"]) := by
  have h := c9_album_precedence testEnv true false c9Post rfl rfl rfl
    (by decide) (by decide) (by decide)
  have hr := h.2.1
    { ok := true, text := "", url := "http://other.com/a/pic.jpg/zip" } (by decide)
  rw [hr]
  decide

/-- C10: the gif toggle never affects an album post: with albums enabled the
working URL ends in "/zip", so the gif skip branch cannot fire and routing is
identical whether gif downloads are on or off. -/
theorem c10_gifs_irrelevant_for_albums (env : Env) (nsfw : Bool) (post : Post)
    (gifs gifs' : Bool)
    (ha : containsSub post.url "/a/" = true) :
    endsWithAny (post.url ++ "/zip") [".gif", ".gifv"] = false ∧
    routePost env true gifs nsfw post = routePost env true gifs' nsfw post ∧
    (routePost env true gifs nsfw post).1 ≠ .skippedGifOff := by
  have hz := zip_gif_check post.url
  refine ⟨hz, ?_⟩
  cases h1 : (post.stickied || post.is_self)
  · cases h2 : (post.over_18 && !nsfw)
    · have hres : resolveUrl env true post.url = (.work (post.url ++ "/zip"), []) := by
        simp [resolveUrl, ha]
      rw [routePost_dispatch env true gifs nsfw post h1 h2 _ _ hres,
          routePost_dispatch env true gifs' nsfw post h1 h2 _ _ hres]
      constructor
      · simp [dispatchUrl, hz]
      · cases hr : get_request env (post.url ++ "/zip")
        · simp [dispatchUrl, hz, hr]
        · simp [dispatchUrl, hz, hr, containsSub_append _ _ _ ha]
    · constructor <;> simp [routePost, h1, h2]
  · constructor <;> simp [routePost, h1]

/-- Album post with a gif-suffixed URL. -/
def c10Post : Post :=
  { url := "http://imgur.com/a/anim.gif", title := "t", stickied := false,
    is_self := false, over_18 := false }

/-- C10 witness: routing a gif-extension album post is the same with gifs on
and off, and is never the gif skip. -/
theorem c10_gifs_irrelevant_for_albums_witness :
    routePost testEnv true true false c10Post =
      routePost testEnv true false false c10Post ∧
    (routePost testEnv true true false c10Post).1 ≠ .skippedGifOff :=
  ⟨(c10_gifs_irrelevant_for_albums testEnv false c10Post true false (by decide)).2.1,
   (c10_gifs_irrelevant_for_albums testEnv false c10Post true false (by decide)).2.2⟩

end Imgbot
